import Mathlib

/-
Shallow embedding of the deta-python Base client (src/deta/base.py).

Python values that can appear in items, queries and update requests are
modelled by the inductive type `Value`; dictionaries are association lists
preserving insertion order, with Python assignment semantics given by
`dictSet` (replace in place when the key exists, append otherwise).
Exceptions are modelled by `Except Err`; the wall clock read by
`datetime.datetime.now()` is passed in explicitly as a `Datetime`
parameter.  Each public operation of `_Base` is split into a request
phase (argument validation and payload construction, everything that runs
before `self._request` is called) and an interpretation phase (mapping the
returned status code and decoded body to a result); an `Except.error`
from a request phase means the transport collaborator is never invoked.
-/

/-- Python values stored in items and update mappings.  The four marker
classes `Util.Trim`, `Util.Increment`, `Util.Append`, `Util.Prepend` from
base.py are plain Python objects, so they are constructors of the same
value type; `increment`, `append` and `prepend` hold the `.value`
attribute stored by the corresponding `__init__`. -/
inductive Value where
  | none
  | bool (b : Bool)
  | int (n : Int)
  | str (s : String)
  | list (xs : List Value)
  | dict (xs : List (String × Value))
  | trim
  | increment (value : Value)
  | append (value : Value)
  | prepend (value : Value)

/-- Python dictionaries with string keys, as insertion-ordered association
lists. -/
abbrev Dict := List (String × Value)

/-- Python dictionary assignment `d[k] = v`: overwrite in place when the
key is present, append at the end otherwise. -/
def dictSet (d : Dict) (k : String) (v : Value) : Dict :=
  match d with
  | [] => [(k, v)]
  | (k0, v0) :: rest => if k0 == k then (k, v) :: rest else (k0, v0) :: dictSet rest k v

/-- Python truthiness for `Value`. -/
def Value.truthy : Value → Bool
  | .none => false
  | .bool b => b
  | .int n => n != 0
  | .str s => s != ""
  | .list xs => !xs.isEmpty
  | .dict xs => !xs.isEmpty
  | .trim => true
  | .increment _ => true
  | .append _ => true
  | .prepend _ => true

/-- Value is one of the four update marker objects. -/
def Value.isMarker : Value → Bool
  | .trim => true
  | .increment _ => true
  | .append _ => true
  | .prepend _ => true
  | _ => false

/-- isinstance(v, bool). -/
def Value.isBool : Value → Bool
  | .bool _ => true
  | _ => false

/-- isinstance(v, list). -/
def Value.isList : Value → Bool
  | .list _ => true
  | _ => false

/-- isinstance(v, Sequence): in base.py the check is against
`typing.Sequence`, which Python lists and strings satisfy and
dictionaries do not. -/
def Value.isSequenceInst : Value → Bool
  | .list _ => true
  | .str _ => true
  | _ => false

/-- Truthiness of an optional string argument (None or empty is falsy). -/
def truthyOptStr : Option String → Bool
  | Option.none => false
  | Option.some s => s != ""

/-- Truthiness of an optional integer argument (None or 0 is falsy). -/
def truthyOptInt : Option Int → Bool
  | Option.none => false
  | Option.some n => n != 0

/-- Truthiness of an optional decoded response body. -/
def truthyOptVal : Option Value → Bool
  | Option.none => false
  | Option.some v => v.truthy

/-- Python datetime.datetime, abstracted by the epoch timestamp `sec` of
its whole-second part and its `microsecond` field (0 ≤ micro < 1000000 on
every value produced by Python; theorems that need the bound take it as a
hypothesis). -/
structure Datetime where
  sec : Int
  micro : Nat

/-- d.timestamp(): seconds since the epoch as an exact rational (Python
returns a float; for realistic datetimes the value is exactly
representable). -/
def Datetime.timestamp (d : Datetime) : Rat :=
  (d.sec : Rat) + (d.micro : Rat) / 1000000

/-- d.replace(microsecond=m). -/
def Datetime.replaceMicrosecond (d : Datetime) (m : Nat) : Datetime :=
  { sec := d.sec, micro := m }

/-- d + datetime.timedelta(seconds=n) for an integer number of seconds
(the declared type of expire_in in the overloads of base.py is int). -/
def Datetime.addSeconds (d : Datetime) (n : Int) : Datetime :=
  { sec := d.sec + n, micro := d.micro }

/-- Python int(q) on a number: truncation toward zero.  `Rat` is stored
reduced with a positive denominator, and `Int.div` is T-division, so this
is exact. -/
def pyInt (q : Rat) : Int :=
  q.num.tdiv (q.den : Int)

/-- Values accepted at runtime for the expire_at parameter: a number
(int or float, modelled as an exact rational), a datetime, or anything
else (which insert_ttl rejects with a TypeError when truthy). -/
inductive ExpireAt where
  | num (q : Rat)
  | dt (d : Datetime)
  | other (v : Value)

/-- Truthiness of expire_at: 0 and 0.0 are falsy, datetimes are always
truthy, other objects use Python truthiness. -/
def ExpireAt.truthy : ExpireAt → Bool
  | .num q => q != 0
  | .dt _ => true
  | .other v => v.truthy

/-- Truthiness of an optional expire_at argument. -/
def truthyOptEat : Option ExpireAt → Bool
  | Option.none => false
  | Option.some e => e.truthy

/-- Exceptions raised by base.py, tagged by the Python exception class
and message; constructors that name a key carry it. -/
inductive Err where
  | valueErrorEmptyKey
  | valueErrorTtlExclusive
  | valueErrorBatchLimit
  | valueErrorAlreadyExists (key : String)
  | valueErrorNotFound (key : String)
  | typeErrorExpireAt
  | typeErrorSubscript
  | keyError (key : String)
  | indexError (i : Int)
deriving DecidableEq

/-- BASE_TTL_ATTRIBUTE from base.py. -/
def BASE_TTL_ATTRIBUTE : String := "__expires"

/-- JSON_MIME, imported by base.py from the service module (outside the
sources in scope); the exact string is irrelevant to every claim. -/
def JSON_MIME : String := "application/json"

/-- insert_ttl from base.py.  `now` is the value `datetime.datetime.now()`
would return at the call.  Returns the mapping after the mutation
`item[ttl_attribute] = int(expire_at)`, or the raised exception; an error
is raised before any write, so an `.error` result leaves the target
mapping untouched. -/
def insert_ttl (now : Datetime) (item : Dict) (ttl_attribute : String)
    (expire_in : Option Int) (expire_at : Option ExpireAt) : Except Err Dict :=
  if truthyOptInt expire_in && truthyOptEat expire_at then
    .error .valueErrorTtlExclusive
  else if !truthyOptInt expire_in && !truthyOptEat expire_at then
    .ok item
  else
    let ea : ExpireAt :=
      if truthyOptInt expire_in then
        .dt (now.addSeconds (expire_in.getD 0))
      else
        expire_at.getD (.num 0)
    match ea with
    | .dt d => .ok (dictSet item ttl_attribute (.int (pyInt ((d.replaceMicrosecond 0).timestamp))))
    | .num q => .ok (dictSet item ttl_attribute (.int (pyInt q)))
    | .other _ => .error .typeErrorExpireAt

namespace Util

/-- Util.Trim() from base.py: a bare marker object. -/
def Trim : Value := Value.trim

/-- Util.Increment(value) from base.py: stores the delta unchanged (the
Python default argument is 1). -/
def Increment (value : Value) : Value := Value.increment value

/-- Util.Append(value) from base.py: `self.value = value if
isinstance(value, list) else [value]`. -/
def Append (value : Value) : Value :=
  Value.append (match value with
    | .list _ => value
    | v => .list [v])

/-- Util.Prepend(value) from base.py: same list coercion as Append. -/
def Prepend (value : Value) : Value :=
  Value.prepend (match value with
    | .list _ => value
    | v => .list [v])

end Util

/-- Upper- or lower-case hexadecimal digit (urllib uses upper case). -/
def hexDigit (n : Nat) : Char :=
  if n < 10 then Char.ofNat (48 + n) else Char.ofNat (55 + n)

/-- Percent-encoding of one character, after urllib.parse.quote with
safe set empty; ASCII model (every key in the claims is ASCII). -/
def quoteChar (c : Char) : String :=
  if c.isAlphanum || c = '-' || c = '.' || c = '_' || c = '~' then
    String.singleton c
  else
    String.mk ['%', hexDigit (c.toNat / 16 % 16), hexDigit (c.toNat % 16)]

/-- urllib.parse.quote(key, safe=empty string), ASCII model. -/
def quote (s : String) : String :=
  String.join (s.toList.map quoteChar)

/-- HTTP methods used by base.py. -/
inductive Method where
  | GET
  | POST
  | PUT
  | PATCH
  | DELETE
deriving DecidableEq

/-- Arguments of one `self._request(path, method, body, content_type)`
call made by base.py; a request phase that returns `.error` instead of a
`Request` never reaches the transport collaborator. -/
structure Request where
  path : String
  method : Method
  body : Option Value
  contentType : Option String

/-- _Base.get, request phase: `if not key: raise ValueError(...)`, then
GET /items/quote(key). -/
def get_request (key : String) : Except Err Request :=
  if key == "" then .error .valueErrorEmptyKey
  else .ok { path := ("/items/") ++ quote key, method := .GET, body := Option.none,
             contentType := Option.none }

/-- _Base.delete, request phase: same key validation, DELETE. -/
def delete_request (key : String) : Except Err Request :=
  if key == "" then .error .valueErrorEmptyKey
  else .ok { path := ("/items/") ++ quote key, method := .DELETE, body := Option.none,
             contentType := Option.none }

/-- Lines 134-137 of base.py, shared by insert and put: `data =
data.copy() if isinstance(data, dict) else dictWithValue(data)`, then `if
key: data[keyAttr] = key`. -/
def shapeData (data : Value) (key : Option String) : Dict :=
  let d : Dict := match data with
    | .dict xs => xs
    | v => [(("value"), v)]
  if truthyOptStr key then dictSet d ("key") (.str (key.getD (""))) else d

/-- _Base.insert, request phase: shape the data, apply insert_ttl, POST
/items with the single item. -/
def insert_request (now : Datetime) (data : Value) (key : Option String)
    (expire_in : Option Int) (expire_at : Option ExpireAt) : Except Err Request :=
  match insert_ttl now (shapeData data key) BASE_TTL_ATTRIBUTE expire_in expire_at with
  | .error e => .error e
  | .ok d => .ok { path := ("/items"), method := .POST,
                   body := Option.some (.dict [(("item"), .dict d)]),
                   contentType := Option.some JSON_MIME }

/-- _Base.insert, interpretation phase: 201 returns the decoded body, 409
raises ValueError naming the key argument (a missing key argument prints
as the Python literal None in the f-string), and any other status falls
off the end of the function, returning None. -/
def insert_interpret (key : Option String) (code : Nat) (res : Option Value) :
    Except Err (Option Value) :=
  if code == 201 then .ok res
  else if code == 409 then .error (.valueErrorAlreadyExists (key.getD ("None")))
  else .ok Option.none

/-- _Base.put, request phase: identical data shaping to insert, then PUT
/items with a batch of one. -/
def put_request (now : Datetime) (data : Value) (key : Option String)
    (expire_in : Option Int) (expire_at : Option ExpireAt) : Except Err Request :=
  match insert_ttl now (shapeData data key) BASE_TTL_ATTRIBUTE expire_in expire_at with
  | .error e => .error e
  | .ok d => .ok { path := ("/items"), method := .PUT,
                   body := Option.some (.dict [(("items"), .list [.dict d])]),
                   contentType := Option.some JSON_MIME }

/-- Python subscripting v[k] on a decoded response: KeyError when the key
is missing, TypeError when v is not a dictionary. -/
def subscript (v : Value) (k : String) : Except Err Value :=
  match v with
  | .dict xs =>
    match xs.lookup k with
    | Option.some x => .ok x
    | Option.none => .error (.keyError k)
  | _ => .error .typeErrorSubscript

/-- Python indexing v[i] for a natural index: IndexError when out of
range, TypeError when v is not a list. -/
def listIndex (v : Value) (i : Nat) : Except Err Value :=
  match v with
  | .list xs =>
    match xs[i]? with
    | Option.some x => .ok x
    | Option.none => .error (.indexError (Int.ofNat i))
  | _ => .error .typeErrorSubscript

/-- _Base.put, interpretation phase: `return
res[processed][items][0] if res and code == 207 else None`. -/
def put_interpret (code : Nat) (res : Option Value) : Except Err (Option Value) :=
  if truthyOptVal res && (code == 207) then
    match subscript (res.getD Value.none) ("processed") with
    | .error e => .error e
    | .ok p =>
      match subscript p ("items") with
      | .error e => .error e
      | .ok its =>
        match listIndex its 0 with
        | .error e => .error e
        | .ok x => .ok (Option.some x)
  else .ok Option.none

/-- Loop body of _Base.put_many: each element is wrapped as a value
dictionary when it is not a mapping, insert_ttl is applied, and the
result is collected in order; an exception from insert_ttl aborts the
loop. -/
def put_many_items (now : Datetime) (items : List Value)
    (expire_in : Option Int) (expire_at : Option ExpireAt) : Except Err (List Dict) :=
  match items with
  | [] => .ok []
  | item :: rest =>
    let d : Dict := match item with
      | .dict xs => xs
      | v => [(("value"), v)]
    match insert_ttl now d BASE_TTL_ATTRIBUTE expire_in expire_at with
    | .error e => .error e
    | .ok d2 =>
      match put_many_items now rest expire_in expire_at with
      | .error e => .error e
      | .ok ds => .ok (d2 :: ds)

/-- _Base.put_many, request phase: the batch ceiling check `len(items) >
25` runs before the loop and before any request. -/
def put_many_request (now : Datetime) (items : List Value)
    (expire_in : Option Int) (expire_at : Option ExpireAt) : Except Err Request :=
  if items.length > 25 then .error .valueErrorBatchLimit
  else
    match put_many_items now items expire_in expire_at with
    | .error e => .error e
    | .ok ds => .ok { path := ("/items"), method := .PUT,
                      body := Option.some (.dict [(("items"), .list (ds.map Value.dict))]),
                      contentType := Option.some JSON_MIME }

/-- _Base.fetch, request phase: the payload always carries limit and
last (a boolean last is replaced by None), and carries query only when
the query argument is truthy, wrapped in a singleton list unless it is
already a Sequence. -/
def fetch_request (query : Option Value) (limit : Int) (last : Option Value) : Request :=
  let payload : Dict :=
    [(("limit"), .int limit),
     (("last"), match last with
       | Option.some v => if v.isBool then Value.none else v
       | Option.none => Value.none)]
  let payload : Dict :=
    if truthyOptVal query then
      dictSet payload ("query")
        (match query with
         | Option.some q => if q.isSequenceInst then q else .list [q]
         | Option.none => Value.none)
    else payload
  { path := ("/query"), method := .POST, body := Option.some (.dict payload),
    contentType := Option.some JSON_MIME }

/-- Wire payload of _Base.update: the five buckets. -/
structure UpdatePayload where
  set : Dict
  increment : Dict
  append : Dict
  prepend : Dict
  delete : List String

/-- Payload initializer at lines 287-293 of base.py. -/
def emptyUpdatePayload : UpdatePayload :=
  { set := [], increment := [], append := [], prepend := [], delete := [] }

/-- Classification loop of _Base.update: each attribute/value pair is
dispatched on the marker class of the value (the `if updates:` guard in
the source only skips the loop for an empty mapping, which the fold does
on its own). -/
def classifyUpdates (updates : Dict) : UpdatePayload :=
  updates.foldl (fun payload pair =>
    match pair with
    | (attr, .trim) => { payload with delete := payload.delete ++ [attr] }
    | (attr, .increment v) => { payload with increment := dictSet payload.increment attr v }
    | (attr, .append v) => { payload with append := dictSet payload.append attr v }
    | (attr, .prepend v) => { payload with prepend := dictSet payload.prepend attr v }
    | (attr, v) => { payload with set := dictSet payload.set attr v })
    emptyUpdatePayload

/-- _Base.update, request phase: empty-key validation first, then the
classification loop, then insert_ttl on the set bucket, then PATCH
/items/quote(key). -/
def update_request (now : Datetime) (updates : Dict) (key : String)
    (expire_in : Option Int) (expire_at : Option ExpireAt) : Except Err Request :=
  if key == "" then .error .valueErrorEmptyKey
  else
    let payload := classifyUpdates updates
    match insert_ttl now payload.set BASE_TTL_ATTRIBUTE expire_in expire_at with
    | .error e => .error e
    | .ok s =>
      .ok { path := ("/items/") ++ quote key, method := .PATCH,
            body := Option.some (.dict
              [(("set"), .dict s),
               (("increment"), .dict payload.increment),
               (("append"), .dict payload.append),
               (("prepend"), .dict payload.prepend),
               (("delete"), .list (payload.delete.map Value.str))]),
            contentType := Option.some JSON_MIME }

/-- Body lookup helper for stating payload-shape theorems. -/
def Request.bodyLookup (r : Request) (k : String) : Option Value :=
  match r.body with
  | Option.some (.dict d) => d.lookup k
  | _ => Option.none

/-
Heap model.  The frame behaviour of insert, put and put_many (which of
them mutate a caller-supplied dictionary in place) depends on Python
object identity, so the data-shaping phase of those three operations is
also given with an explicit heap: dictionaries live at numeric
references, `data.copy()` allocates a fresh reference, and plain
assignment `data = item` aliases the existing one.  Python state mutation
survives an exception, so heap phases return the heap alongside the
outcome.
-/

/-- Heap of Python dictionaries, addressed by allocation index. -/
abbrev Heap := List Dict

/-- Dereference a dictionary (out-of-range reads, which never occur in
the modelled runs, give the empty dictionary). -/
def heapGet (h : Heap) (r : Nat) : Dict :=
  (h[r]?).getD []

/-- In-place update of the dictionary at a reference. -/
def heapSet (h : Heap) (r : Nat) (d : Dict) : Heap :=
  h.set r d

/-- An argument that Python passes by reference when it is a dict and by
value otherwise. -/
inductive PyArg where
  | ref (r : Nat)
  | val (v : Value)

/-- insert_ttl acting on the dictionary stored at reference r: the single
write `item[ttl_attribute] = int(expire_at)` happens only when no
exception is raised first. -/
def insert_ttl_heap (now : Datetime) (h : Heap) (r : Nat) (ttl_attribute : String)
    (expire_in : Option Int) (expire_at : Option ExpireAt) : Heap × Except Err Unit :=
  match insert_ttl now (heapGet h r) ttl_attribute expire_in expire_at with
  | .ok d => (heapSet h r d, .ok ())
  | .error e => (h, .error e)

/-- Data-shaping phase of _Base.insert and _Base.put over the heap:
`data = data.copy() if isinstance(data, dict) else dictWithValue(data)`
allocates a fresh dictionary in both branches, so the TTL write lands on
the copy and the caller-supplied dictionary is untouched.  Returns the
reference holding the shaped data. -/
def insert_data_heap (now : Datetime) (h : Heap) (data : PyArg) (key : Option String)
    (expire_in : Option Int) (expire_at : Option ExpireAt) : Heap × Except Err Nat :=
  let d0 : Dict := match data with
    | .ref r0 => heapGet h r0
    | .val v => [(("value"), v)]
  let h1 : Heap := h ++ [d0]
  let r : Nat := h.length
  let h2 : Heap :=
    if truthyOptStr key then heapSet h1 r (dictSet (heapGet h1 r) ("key") (.str (key.getD (""))))
    else h1
  match insert_ttl_heap now h2 r BASE_TTL_ATTRIBUTE expire_in expire_at with
  | (h3, .ok ()) => (h3, .ok r)
  | (h3, .error e) => (h3, .error e)

/-- _Base.put shapes its data with exactly the same lines as
_Base.insert (base.py lines 179-183 repeat lines 134-138). -/
def put_data_heap (now : Datetime) (h : Heap) (data : PyArg) (key : Option String)
    (expire_in : Option Int) (expire_at : Option ExpireAt) : Heap × Except Err Nat :=
  insert_data_heap now h data key expire_in expire_at

/-- Loop of _Base.put_many over the heap: `data = item` keeps the
caller-supplied reference when the element is already a dict (no copy),
and allocates a fresh value dictionary otherwise; insert_ttl then writes
into that reference. -/
def put_many_loop (now : Datetime) (h : Heap) (items : List PyArg)
    (expire_in : Option Int) (expire_at : Option ExpireAt) (acc : List Nat) :
    Heap × Except Err (List Nat) :=
  match items with
  | [] => (h, .ok acc)
  | item :: rest =>
    let p : Heap × Nat := match item with
      | .ref r0 => (h, r0)
      | .val v => (h ++ [[(("value"), v)]], h.length)
    match insert_ttl_heap now p.1 p.2 BASE_TTL_ATTRIBUTE expire_in expire_at with
    | (h2, .ok ()) => put_many_loop now h2 rest expire_in expire_at (acc ++ [p.2])
    | (h2, .error e) => (h2, .error e)

/-- _Base.put_many over the heap: batch ceiling first, then the loop. -/
def put_many_data_heap (now : Datetime) (h : Heap) (items : List PyArg)
    (expire_in : Option Int) (expire_at : Option ExpireAt) :
    Heap × Except Err (List Nat) :=
  if items.length > 25 then (h, .error .valueErrorBatchLimit)
  else put_many_loop now h items expire_in expire_at []

/-- Value insert_ttl writes under the TTL attribute for the given
arguments, or none when it raises or does nothing; used to characterize
the successful writing runs of insert_ttl in theorem statements. -/
def ttlVal (now : Datetime) (expire_in : Option Int) (expire_at : Option ExpireAt) :
    Option Int :=
  if truthyOptInt expire_in && truthyOptEat expire_at then Option.none
  else if !truthyOptInt expire_in && !truthyOptEat expire_at then Option.none
  else
    match (if truthyOptInt expire_in then
             ExpireAt.dt (now.addSeconds (expire_in.getD 0))
           else expire_at.getD (.num 0)) with
    | .dt d => Option.some (pyInt ((d.replaceMicrosecond 0).timestamp))
    | .num q => Option.some (pyInt q)
    | .other _ => Option.none

/-
Helper lemmas shared by the claim theorems.
-/

/-- Assignment then lookup on a Python dictionary returns the assigned
value. -/
theorem lookup_dictSet_self (d : Dict) (k : String) (v : Value) :
    (dictSet d k v).lookup k = Option.some v := by
  induction d with
  | nil => simp [dictSet]
  | cons p rest ih =>
    obtain ⟨k0, v0⟩ := p
    by_cases h : k0 = k
    · simp [dictSet, h]
    · have hbeq : (k == k0) = false := by simp [Ne.symm h]
      simp [dictSet, h, List.lookup, hbeq, ih]

/-- insert_ttl raises the mutual-exclusion ValueError as soon as both
parameters are truthy. -/
theorem insert_ttl_conflict (now : Datetime) (item : Dict) (ttl_attribute : String)
    (ein : Option Int) (eat : Option ExpireAt)
    (hin : truthyOptInt ein = true) (hat : truthyOptEat eat = true) :
    insert_ttl now item ttl_attribute ein eat = .error .valueErrorTtlExclusive := by
  simp [insert_ttl, hin, hat]

/-- insert_ttl does nothing when neither parameter is truthy. -/
theorem insert_ttl_noop (now : Datetime) (item : Dict) (ttl_attribute : String)
    (ein : Option Int) (eat : Option ExpireAt)
    (hin : truthyOptInt ein = false) (hat : truthyOptEat eat = false) :
    insert_ttl now item ttl_attribute ein eat = .ok item := by
  simp [insert_ttl, hin, hat]

/-- Successful writing runs of insert_ttl: whenever `ttlVal` names a
written value, insert_ttl assigns exactly that integer under the TTL
attribute of any target mapping. -/
theorem insert_ttl_of_ttlVal (now : Datetime) (item : Dict) (ttl_attribute : String)
    (ein : Option Int) (eat : Option ExpireAt) (w : Int)
    (hw : ttlVal now ein eat = Option.some w) :
    insert_ttl now item ttl_attribute ein eat
      = .ok (dictSet item ttl_attribute (.int w)) := by
  cases h1 : (truthyOptInt ein && truthyOptEat eat) with
  | true => simp [ttlVal, h1] at hw
  | false =>
    cases h2 : (!truthyOptInt ein && !truthyOptEat eat) with
    | true => simp [ttlVal, h1, h2] at hw
    | false =>
      simp only [ttlVal, h1, h2, Bool.false_eq_true, if_false] at hw
      simp only [insert_ttl, h1, h2, Bool.false_eq_true, if_false]
      cases hea : (if truthyOptInt ein then ExpireAt.dt (now.addSeconds (ein.getD 0))
                   else eat.getD (.num 0)) with
      | dt d => rw [hea] at hw; simp_all
      | num q => rw [hea] at hw; simp_all
      | other v => rw [hea] at hw; simp_all

/-- Claim C2: whenever both expire_in and expire_at are truthy, TTL
normalization raises the mutual-exclusion ValueError, the target mapping
is left unchanged (stated over the heap model), and none of insert, put,
put_many and update reaches the transport collaborator (their request
phases return the error instead of a request). -/
theorem ttl_mutual_exclusion_spec (now : Datetime) (item : Dict) (ttl_attribute : String)
    (data : Value) (key : Option String) (key2 : String) (updates : Dict)
    (items : List Value) (h : Heap) (r : Nat) (ein : Option Int) (eat : Option ExpireAt)
    (hin : truthyOptInt ein = true) (hat : truthyOptEat eat = true)
    (hk : key2 ≠ "") (hle : items.length ≤ 25) (hne : items ≠ []) :
    insert_ttl now item ttl_attribute ein eat = .error .valueErrorTtlExclusive
    ∧ insert_ttl_heap now h r ttl_attribute ein eat = (h, .error .valueErrorTtlExclusive)
    ∧ insert_request now data key ein eat = .error .valueErrorTtlExclusive
    ∧ put_request now data key ein eat = .error .valueErrorTtlExclusive
    ∧ put_many_request now items ein eat = .error .valueErrorTtlExclusive
    ∧ update_request now updates key2 ein eat = .error .valueErrorTtlExclusive := by
  have hc := fun (it : Dict) (ta : String) => insert_ttl_conflict now it ta ein eat hin hat
  refine ⟨hc _ _, ?_, ?_, ?_, ?_, ?_⟩
  · simp [insert_ttl_heap, hc]
  · simp [insert_request, hc]
  · simp [put_request, hc]
  · cases items with
    | nil => exact absurd rfl hne
    | cons x rest =>
      have hgt : ¬ ((x :: rest).length > 25) := Nat.not_lt.mpr hle
      simp only [put_many_request, hgt, if_false, put_many_items, hc]
  · simp [update_request, hk, hc]

/-- Witness for C2 at concrete arguments. -/
theorem ttl_mutual_exclusion_spec_witness :
    truthyOptInt (Option.some 5) = true
    ∧ truthyOptEat (Option.some (ExpireAt.num 7)) = true
    ∧ insert_request ⟨0, 0⟩ (Value.int 1) Option.none (Option.some 5)
        (Option.some (ExpireAt.num 7)) = .error .valueErrorTtlExclusive :=
  ⟨by decide, by decide,
   (ttl_mutual_exclusion_spec ⟨0, 0⟩ [] ("t") (Value.int 1) Option.none ("k") []
     [Value.int 1] [] 0 (Option.some 5) (Option.some (ExpireAt.num 7))
     (by decide) (by decide) (by decide) (by decide) (by simp)).2.2.1⟩

/-- Claim C5: put_many refuses every batch of more than 25 items with the
batch-limit ValueError before building a request. -/
theorem put_many_batch_limit_spec (now : Datetime) (items : List Value)
    (ein : Option Int) (eat : Option ExpireAt) (hlen : 25 < items.length) :
    put_many_request now items ein eat = .error .valueErrorBatchLimit := by
  simp [put_many_request, hlen]

/-- Witness for C5: 26 items are rejected. -/
theorem put_many_batch_limit_spec_witness :
    25 < (List.replicate 26 (Value.int 0)).length
    ∧ put_many_request ⟨0, 0⟩ (List.replicate 26 (Value.int 0)) Option.none Option.none
        = .error .valueErrorBatchLimit :=
  ⟨by simp, put_many_batch_limit_spec ⟨0, 0⟩ (List.replicate 26 (Value.int 0))
    Option.none Option.none (by simp)⟩

/-- Claim C6: get, delete and update called with the empty key raise the
empty-key ValueError in the request phase, so the transport collaborator
is never invoked. -/
theorem empty_key_rejection_spec (now : Datetime) (updates : Dict)
    (ein : Option Int) (eat : Option ExpireAt) :
    get_request ("") = .error .valueErrorEmptyKey
    ∧ delete_request ("") = .error .valueErrorEmptyKey
    ∧ update_request now updates ("") ein eat = .error .valueErrorEmptyKey := by
  refine ⟨rfl, rfl, ?_⟩
  simp [update_request]

/-- Claim C8: insert maps status 201 to the created item decoded from the
response body, and status 409 to a ValueError naming the conflicting key;
in particular inserting with key abc against a 409 response yields an
error naming abc. -/
theorem insert_status_interpretation_spec (key : Option String) (res : Option Value) :
    insert_interpret key 201 res = .ok res
    ∧ insert_interpret key 409 res = .error (.valueErrorAlreadyExists (key.getD ("None")))
    ∧ insert_interpret (Option.some ("abc")) 409 res
        = .error (.valueErrorAlreadyExists ("abc")) := by
  exact ⟨rfl, rfl, rfl⟩

/-- Python int() is the identity on integer-valued numbers. -/
theorem pyInt_intCast (z : Int) : pyInt ((z : Rat)) = z := by
  simp [pyInt, Rat.num_intCast, Rat.den_intCast]

/-- Discarding the microsecond field makes the timestamp the whole-second
part. -/
theorem timestamp_replace0 (d : Datetime) :
    (d.replaceMicrosecond 0).timestamp = (d.sec : Rat) := by
  simp [Datetime.replaceMicrosecond, Datetime.timestamp]

/-- Claim C3: for a datetime expire_at, the integer written under the TTL
attribute is exactly int(d.replace(microsecond=0).timestamp()); that
value is the whole-second part of d, it is the floor of the exact
timestamp of d, and it never exceeds it (truncation never rounds up). -/
theorem ttl_datetime_truncation_spec (now : Datetime) (item : Dict) (ttl_attribute : String)
    (d : Datetime) (hm : d.micro < 1000000) :
    insert_ttl now item ttl_attribute Option.none (Option.some (ExpireAt.dt d))
      = .ok (dictSet item ttl_attribute (Value.int (pyInt ((d.replaceMicrosecond 0).timestamp))))
    ∧ pyInt ((d.replaceMicrosecond 0).timestamp) = d.sec
    ∧ pyInt ((d.replaceMicrosecond 0).timestamp) = Int.floor d.timestamp
    ∧ ((pyInt ((d.replaceMicrosecond 0).timestamp) : Rat) ≤ d.timestamp) := by
  have hpy : pyInt ((d.replaceMicrosecond 0).timestamp) = d.sec := by
    rw [timestamp_replace0]; exact pyInt_intCast d.sec
  have hfrac0 : (0 : Rat) ≤ (d.micro : Rat) / 1000000 := by positivity
  have hfrac1 : (d.micro : Rat) / 1000000 < 1 := by
    rw [div_lt_one (by norm_num)]
    exact_mod_cast hm
  have hle : ((d.sec : Rat)) ≤ d.timestamp := by
    simp only [Datetime.timestamp]
    linarith
  have hfloor : Int.floor d.timestamp = d.sec := by
    rw [Int.floor_eq_iff]
    refine ⟨hle, ?_⟩
    simp only [Datetime.timestamp]
    linarith
  refine ⟨rfl, hpy, by rw [hpy, hfloor], by rw [hpy]; exact hle⟩

/-- Witness for C3 at a concrete datetime with a maximal microsecond
field. -/
theorem ttl_datetime_truncation_spec_witness :
    (Datetime.mk 100 999999).micro < 1000000
    ∧ pyInt (((Datetime.mk 100 999999).replaceMicrosecond 0).timestamp)
        = Int.floor (Datetime.mk 100 999999).timestamp :=
  ⟨by decide,
   (ttl_datetime_truncation_spec ⟨0, 0⟩ [] ("t") ⟨100, 999999⟩ (by decide)).2.2.1⟩

/-- Claim C10: insert_ttl tests its parameters by truthiness, so a zero
expire_in or a zero expire_at behaves exactly like an absent one: no
error, no TTL write from the zero parameter, and a zero paired with a
truthy other parameter does not trigger the mutual-exclusion error and
uses the truthy one. -/
theorem ttl_truthiness_spec (now : Datetime) (item : Dict) (ttl_attribute : String)
    (ein : Option Int) (eat : Option ExpireAt) (n : Int) (q : Rat)
    (hn : n ≠ 0) (hq : q ≠ 0) :
    insert_ttl now item ttl_attribute (Option.some 0) eat
      = insert_ttl now item ttl_attribute Option.none eat
    ∧ insert_ttl now item ttl_attribute ein (Option.some (ExpireAt.num 0))
      = insert_ttl now item ttl_attribute ein Option.none
    ∧ insert_ttl now item ttl_attribute (Option.some 0) (Option.some (ExpireAt.num 0))
      = .ok item
    ∧ insert_ttl now item ttl_attribute (Option.some 0) (Option.some (ExpireAt.num q))
      = .ok (dictSet item ttl_attribute (.int (pyInt q)))
    ∧ insert_ttl now item ttl_attribute (Option.some n) (Option.some (ExpireAt.num 0))
      = .ok (dictSet item ttl_attribute (.int (now.sec + n))) := by
  have h0i : truthyOptInt (Option.some 0) = false := by decide
  have h0e : truthyOptEat (Option.some (ExpireAt.num 0)) = false := by decide
  have hni : truthyOptInt (Option.some n) = true := by simp [truthyOptInt, hn]
  have hqe : truthyOptEat (Option.some (ExpireAt.num q)) = true := by
    simp [truthyOptEat, ExpireAt.truthy, hq]
  have h0t : (ExpireAt.num 0).truthy = false := by decide
  refine ⟨?_, ?_, ?_, ?_, ?_⟩
  · cases hte : truthyOptEat eat <;> simp [insert_ttl, h0i, hte, truthyOptInt]
  · cases hti : truthyOptInt ein <;> simp [insert_ttl, hti, h0e, h0t, truthyOptEat]
  · exact insert_ttl_noop now item ttl_attribute _ _ h0i h0e
  · simp [insert_ttl, h0i, hqe]
  · have : insert_ttl now item ttl_attribute (Option.some n) (Option.some (ExpireAt.num 0))
        = .ok (dictSet item ttl_attribute
            (.int (pyInt ((((now.addSeconds n)).replaceMicrosecond 0).timestamp)))) := by
      simp [insert_ttl, hni, h0e]
    rw [this, timestamp_replace0, pyInt_intCast]
    rfl

/-- Witness for C10 at concrete arguments. -/
theorem ttl_truthiness_spec_witness :
    (3 : Int) ≠ 0 ∧ (2 : Rat) ≠ 0
    ∧ insert_ttl ⟨10, 5⟩ [] ("t") (Option.some 3) (Option.some (ExpireAt.num 0))
        = .ok (dictSet [] ("t") (.int 13)) :=
  ⟨by decide, by decide,
   (ttl_truthiness_spec ⟨10, 5⟩ [] ("t") Option.none Option.none 3 2
     (by decide) (by decide)).2.2.2.2⟩

/-- Claim C4: put returns the first processed item of a 207 multi-status
response, and returns None without raising when the response body is
empty or falsy, or the status is not 207 (the server reporting that
nothing was processed). -/
theorem put_response_extraction_spec (code : Nat) (d p : Dict) (x : Value)
    (xs : List Value) (v : Value)
    (hd : d.lookup ("processed") = Option.some (Value.dict p))
    (hp : p.lookup ("items") = Option.some (Value.list (x :: xs)))
    (hne : d ≠ []) (hv : v.truthy = false) (hcode : code ≠ 207) :
    put_interpret 207 (Option.some (Value.dict d)) = .ok (Option.some x)
    ∧ put_interpret code (Option.some (Value.dict d)) = .ok Option.none
    ∧ put_interpret code Option.none = .ok Option.none
    ∧ put_interpret 207 (Option.some v) = .ok Option.none := by
  have hdt : (Value.dict d).truthy = true := by
    cases d with
    | nil => exact absurd rfl hne
    | cons a l => simp [Value.truthy]
  refine ⟨?_, ?_, ?_, ?_⟩
  · simp [put_interpret, truthyOptVal, hdt, subscript, hd, hp, listIndex]
  · have hc : (code == 207) = false := by simp [hcode]
    simp [put_interpret, truthyOptVal, hdt, hc]
  · simp [put_interpret, truthyOptVal]
  · simp [put_interpret, truthyOptVal, hv]

/-- Witness for C4 at a concrete 207 response. -/
theorem put_response_extraction_spec_witness :
    put_interpret 207 (Option.some (Value.dict
        [(("processed"), Value.dict [(("items"), Value.list [Value.int 42])])]))
      = .ok (Option.some (Value.int 42))
    ∧ put_interpret 200 Option.none = .ok Option.none := by
  have h := put_response_extraction_spec 200
    [(("processed"), Value.dict [(("items"), Value.list [Value.int 42])])]
    [(("items"), Value.list [Value.int 42])] (Value.int 42) [] (Value.dict [])
    rfl rfl (by simp) rfl (by decide)
  exact ⟨h.1, h.2.2.1⟩

/-- Claim C7: every fetch payload carries limit; the last field is the
supplied cursor except that a boolean is replaced by None; a truthy query
that is not already a Sequence is wrapped in a singleton list, one that
is stays as given, and the query field is omitted when no (truthy) query
is supplied. -/
theorem fetch_payload_normalization_spec (limit : Int) (lastv : Option Value) (b : Bool)
    (query : Option Value) (v w u q : Value)
    (hnb : v.isBool = false) (hwt : w.truthy = true) (hws : w.isSequenceInst = false)
    (hut : u.truthy = true) (hus : u.isSequenceInst = true) (hqf : q.truthy = false) :
    (fetch_request query limit lastv).bodyLookup ("limit") = Option.some (Value.int limit)
    ∧ (fetch_request query limit (Option.some (Value.bool b))).bodyLookup ("last")
        = Option.some Value.none
    ∧ (fetch_request query limit Option.none).bodyLookup ("last") = Option.some Value.none
    ∧ (fetch_request query limit (Option.some v)).bodyLookup ("last") = Option.some v
    ∧ (fetch_request (Option.some w) limit lastv).bodyLookup ("query")
        = Option.some (Value.list [w])
    ∧ (fetch_request (Option.some u) limit lastv).bodyLookup ("query") = Option.some u
    ∧ (fetch_request Option.none limit lastv).bodyLookup ("query") = Option.none
    ∧ (fetch_request (Option.some q) limit lastv).bodyLookup ("query") = Option.none := by
  refine ⟨?_, ?_, ?_, ?_, ?_, ?_, ?_, ?_⟩
  · cases query with
    | none => simp [fetch_request, Request.bodyLookup, List.lookup, truthyOptVal]
    | some qq =>
      by_cases ht : qq.truthy
      · simp [fetch_request, Request.bodyLookup, List.lookup, truthyOptVal, ht, dictSet]
      · simp [fetch_request, Request.bodyLookup, List.lookup, truthyOptVal, ht]
  · cases query with
    | none => simp [fetch_request, Request.bodyLookup, List.lookup, truthyOptVal, Value.isBool]
    | some qq =>
      by_cases ht : qq.truthy
      · simp [fetch_request, Request.bodyLookup, List.lookup, truthyOptVal, ht, dictSet, Value.isBool]
      · simp [fetch_request, Request.bodyLookup, List.lookup, truthyOptVal, ht, Value.isBool]
  · cases query with
    | none => simp [fetch_request, Request.bodyLookup, List.lookup, truthyOptVal]
    | some qq =>
      by_cases ht : qq.truthy
      · simp [fetch_request, Request.bodyLookup, List.lookup, truthyOptVal, ht, dictSet]
      · simp [fetch_request, Request.bodyLookup, List.lookup, truthyOptVal, ht]
  · cases query with
    | none => simp [fetch_request, Request.bodyLookup, List.lookup, truthyOptVal, hnb]
    | some qq =>
      by_cases ht : qq.truthy
      · simp [fetch_request, Request.bodyLookup, List.lookup, truthyOptVal, ht, dictSet, hnb]
      · simp [fetch_request, Request.bodyLookup, List.lookup, truthyOptVal, ht, hnb]
  · simp [fetch_request, Request.bodyLookup, List.lookup, truthyOptVal, hwt, hws, dictSet]
  · simp [fetch_request, Request.bodyLookup, List.lookup, truthyOptVal, hut, hus, dictSet]
  · simp [fetch_request, Request.bodyLookup, List.lookup, truthyOptVal]
  · simp [fetch_request, Request.bodyLookup, List.lookup, truthyOptVal, hqf]

/-- Witness for C7 at concrete arguments: a dict query is wrapped, the
boolean cursor is dropped. -/
theorem fetch_payload_normalization_spec_witness :
    (fetch_request (Option.some (Value.dict [(("age?gt"), Value.int 10)])) 1000
        (Option.some (Value.bool true))).bodyLookup ("query")
      = Option.some (Value.list [Value.dict [(("age?gt"), Value.int 10)]])
    ∧ (fetch_request (Option.some (Value.dict [(("age?gt"), Value.int 10)])) 1000
        (Option.some (Value.bool true))).bodyLookup ("last") = Option.some Value.none :=
  ⟨(fetch_payload_normalization_spec 1000 (Option.some (Value.bool true)) true
      (Option.some (Value.dict [(("age?gt"), Value.int 10)]))
      (Value.str ("c")) (Value.dict [(("age?gt"), Value.int 10)]) (Value.list [Value.int 1])
      (Value.dict []) rfl rfl rfl rfl rfl rfl).2.2.2.2.1,
   (fetch_payload_normalization_spec 1000 (Option.some (Value.bool true)) true
      (Option.some (Value.dict [(("age?gt"), Value.int 10)]))
      (Value.str ("c")) (Value.dict [(("age?gt"), Value.int 10)]) (Value.list [Value.int 1])
      (Value.dict []) rfl rfl rfl rfl rfl rfl).2.1⟩

/-- Claim C1: the update encoder sends each attribute/value pair to
exactly one wire bucket, selected by the marker type of the value: Trim
appends the attribute to delete, Increment places its delta under
increment, Append and Prepend place their (list-coerced) value under the
matching bucket, and any non-marker value goes raw into set; the
one-of-each example encodes as stated in the specification and the empty
mapping leaves all five buckets empty. -/
theorem update_encoder_classification_spec (us : Dict) (attr : String) (u v w : Value)
    (xs : List Value) (hv : v.isMarker = false) (hw : w.isList = false) :
    classifyUpdates (us ++ [(attr, Util.Trim)])
      = { classifyUpdates us with delete := (classifyUpdates us).delete ++ [attr] }
    ∧ classifyUpdates (us ++ [(attr, Util.Increment u)])
      = { classifyUpdates us with
          increment := dictSet (classifyUpdates us).increment attr u }
    ∧ classifyUpdates (us ++ [(attr, Util.Append (Value.list xs))])
      = { classifyUpdates us with
          append := dictSet (classifyUpdates us).append attr (Value.list xs) }
    ∧ classifyUpdates (us ++ [(attr, Util.Append w)])
      = { classifyUpdates us with
          append := dictSet (classifyUpdates us).append attr (Value.list [w]) }
    ∧ classifyUpdates (us ++ [(attr, Util.Prepend (Value.list xs))])
      = { classifyUpdates us with
          prepend := dictSet (classifyUpdates us).prepend attr (Value.list xs) }
    ∧ classifyUpdates (us ++ [(attr, Util.Prepend w)])
      = { classifyUpdates us with
          prepend := dictSet (classifyUpdates us).prepend attr (Value.list [w]) }
    ∧ classifyUpdates (us ++ [(attr, v)])
      = { classifyUpdates us with set := dictSet (classifyUpdates us).set attr v }
    ∧ classifyUpdates [] = emptyUpdatePayload
    ∧ classifyUpdates
        [(("trim_attr"), Util.Trim), (("incr_attr"), Util.Increment (Value.int 5)),
         (("append_attr"), Util.Append (Value.list [Value.int 1, Value.int 2])),
         (("prepend_attr"), Util.Prepend (Value.int 0))]
      = { set := [], increment := [(("incr_attr"), Value.int 5)],
          append := [(("append_attr"), Value.list [Value.int 1, Value.int 2])],
          prepend := [(("prepend_attr"), Value.list [Value.int 0])],
          delete := [("trim_attr")] } := by
  refine ⟨?_, ?_, ?_, ?_, ?_, ?_, ?_, rfl, rfl⟩
  · simp [classifyUpdates, List.foldl_append, Util.Trim]
  · simp [classifyUpdates, List.foldl_append, Util.Increment]
  · simp [classifyUpdates, List.foldl_append, Util.Append]
  · cases w <;> simp_all [classifyUpdates, List.foldl_append, Util.Append, Value.isList]
  · simp [classifyUpdates, List.foldl_append, Util.Prepend]
  · cases w <;> simp_all [classifyUpdates, List.foldl_append, Util.Prepend, Value.isList]
  · cases v <;> simp_all [classifyUpdates, List.foldl_append, Value.isMarker]

/-- Witness for C1 at concrete arguments: a raw value and a scalar
append coercion on a singleton mapping. -/
theorem update_encoder_classification_spec_witness :
    classifyUpdates [(("a"), Value.int 7)]
      = { set := [(("a"), Value.int 7)], increment := [], append := [], prepend := [],
          delete := [] }
    ∧ classifyUpdates [(("b"), Util.Append (Value.int 3))]
      = { set := [], increment := [], append := [(("b"), Value.list [Value.int 3])],
          prepend := [], delete := [] } := by
  have h1 := (update_encoder_classification_spec [] ("a") (Value.int 0) (Value.int 7)
    (Value.int 3) [] rfl rfl).2.2.2.2.2.2.1
  have h2 := (update_encoder_classification_spec [] ("b") (Value.int 0) (Value.int 7)
    (Value.int 3) [] rfl rfl).2.2.2.1
  simpa using ⟨h1, h2⟩

/-
Heap lemmas for the frame claim.
-/

/-- Reading back a written reference. -/
theorem heapGet_heapSet_self (h : Heap) (r : Nat) (d : Dict) (hr : r < h.length) :
    heapGet (heapSet h r d) r = d := by
  simp [heapGet, heapSet, List.getElem?_set_self hr]

/-- Writing one reference leaves every other reference unchanged. -/
theorem heapGet_heapSet_ne (h : Heap) (r r2 : Nat) (d : Dict) (hne : r ≠ r2) :
    heapGet (heapSet h r d) r2 = heapGet h r2 := by
  simp [heapGet, heapSet, List.getElem?_set_ne hne]

/-- Allocation at the end leaves existing references unchanged. -/
theorem heapGet_append (h : Heap) (d : Dict) (r : Nat) (hr : r < h.length) :
    heapGet (h ++ [d]) r = heapGet h r := by
  simp [heapGet, List.getElem?_append_left hr]

/-- Writing preserves the heap size. -/
theorem length_heapSet (h : Heap) (r : Nat) (d : Dict) :
    (heapSet h r d).length = h.length := by
  simp [heapSet]

/-- Heap form of the successful writing runs of insert_ttl. -/
theorem insert_ttl_heap_writes (now : Datetime) (h : Heap) (r : Nat) (ta : String)
    (ein : Option Int) (eat : Option ExpireAt) (w : Int)
    (hw : ttlVal now ein eat = Option.some w) :
    insert_ttl_heap now h r ta ein eat
      = (heapSet h r (dictSet (heapGet h r) ta (.int w)), .ok ()) := by
  simp [insert_ttl_heap, insert_ttl_of_ttlVal now (heapGet h r) ta ein eat w hw]

/-- Once a reference holds the written TTL value, the rest of the
put_many loop keeps it there and never shrinks the heap. -/
theorem put_many_loop_preserves (now : Datetime) (ein : Option Int) (eat : Option ExpireAt)
    (w : Int) (hw : ttlVal now ein eat = Option.some w) :
    ∀ (items : List PyArg) (acc : List Nat) (h : Heap) (r : Nat),
      r < h.length →
      (heapGet h r).lookup BASE_TTL_ATTRIBUTE = Option.some (.int w) →
      r < (put_many_loop now h items ein eat acc).1.length ∧
      (heapGet (put_many_loop now h items ein eat acc).1 r).lookup BASE_TTL_ATTRIBUTE
        = Option.some (.int w) := by
  intro items
  induction items with
  | nil =>
    intro acc h r hr hl
    simpa [put_many_loop] using ⟨hr, hl⟩
  | cons item rest ih =>
    intro acc h r hr hl
    cases item with
    | ref r0 =>
      rw [put_many_loop, insert_ttl_heap_writes now h r0 BASE_TTL_ATTRIBUTE ein eat w hw]
      apply ih
      · rw [length_heapSet]; exact hr
      · by_cases hrr : r0 = r
        · subst hrr
          rw [heapGet_heapSet_self h r0 _ hr]
          exact lookup_dictSet_self (heapGet h r0) BASE_TTL_ATTRIBUTE (.int w)
        · rw [heapGet_heapSet_ne h r0 r _ hrr]
          exact hl
    | val v =>
      rw [put_many_loop]
      rw [insert_ttl_heap_writes now (h ++ [[(("value"), v)]]) h.length
        BASE_TTL_ATTRIBUTE ein eat w hw]
      apply ih
      · rw [length_heapSet]; simp; omega
      · rw [heapGet_heapSet_ne _ h.length r _ (Nat.ne_of_gt hr)]
        rw [heapGet_append h _ r hr]
        exact hl

/-- Processing a batch that contains a reference item writes the TTL
value into the dictionary at that reference. -/
theorem put_many_loop_establishes (now : Datetime) (ein : Option Int) (eat : Option ExpireAt)
    (w : Int) (hw : ttlVal now ein eat = Option.some w) :
    ∀ (items : List PyArg) (acc : List Nat) (h : Heap) (r : Nat),
      r < h.length → PyArg.ref r ∈ items →
      (heapGet (put_many_loop now h items ein eat acc).1 r).lookup BASE_TTL_ATTRIBUTE
        = Option.some (.int w) := by
  intro items
  induction items with
  | nil =>
    intro acc h r hr hmem
    cases hmem
  | cons item rest ih =>
    intro acc h r hr hmem
    cases item with
    | ref r0 =>
      rw [put_many_loop, insert_ttl_heap_writes now h r0 BASE_TTL_ATTRIBUTE ein eat w hw]
      by_cases hrr : PyArg.ref r ∈ rest
      · exact ih (acc ++ [r0]) _ r (by rw [length_heapSet]; exact hr) hrr
      · have hr0 : r0 = r := by
          rcases List.mem_cons.mp hmem with h1 | h2
          · cases h1; rfl
          · exact absurd h2 hrr
        subst hr0
        refine (put_many_loop_preserves now ein eat w hw rest (acc ++ [r0]) _ r0 ?_ ?_).2
        · rw [length_heapSet]; exact hr
        · rw [heapGet_heapSet_self h r0 _ hr]
          exact lookup_dictSet_self (heapGet h r0) BASE_TTL_ATTRIBUTE (.int w)
    | val v =>
      rw [put_many_loop]
      rw [insert_ttl_heap_writes now (h ++ [[(("value"), v)]]) h.length
        BASE_TTL_ATTRIBUTE ein eat w hw]
      have hmem2 : PyArg.ref r ∈ rest := by
        rcases List.mem_cons.mp hmem with h1 | h2
        · cases h1
        · exact h2
      apply ih
      · rw [length_heapSet]; simp; omega
      · exact hmem2

/-- Claim C9: put_many does not copy caller-supplied mapping items: with
a TTL requested (a pair of parameters insert_ttl accepts and writes for),
the TTL attribute is written into the dictionary at the caller-visible
reference itself; insert and put, which run data.copy() first, leave the
dictionary at the caller-supplied reference exactly as it was. -/
theorem put_many_aliasing_spec (now : Datetime) (h : Heap) (items : List PyArg)
    (r : Nat) (key : Option String) (ein : Option Int) (eat : Option ExpireAt) (w : Int)
    (hw : ttlVal now ein eat = Option.some w)
    (hr : r < h.length) (hmem : PyArg.ref r ∈ items) (hlen : items.length ≤ 25) :
    (heapGet (put_many_data_heap now h items ein eat).1 r).lookup BASE_TTL_ATTRIBUTE
      = Option.some (.int w)
    ∧ heapGet (insert_data_heap now h (.ref r) key ein eat).1 r = heapGet h r
    ∧ heapGet (put_data_heap now h (.ref r) key ein eat).1 r = heapGet h r := by
  have hfresh : h.length ≠ r := Nat.ne_of_gt hr
  have hins : heapGet (insert_data_heap now h (.ref r) key ein eat).1 r = heapGet h r := by
    simp only [insert_data_heap]
    cases hk : truthyOptStr key
    · simp only [hk, Bool.false_eq_true, if_false]
      rw [insert_ttl_heap_writes now (h ++ [heapGet h r]) h.length
        BASE_TTL_ATTRIBUTE ein eat w hw]
      rw [heapGet_heapSet_ne _ h.length r _ hfresh]
      exact heapGet_append h _ r hr
    · simp only [hk, if_true]
      rw [insert_ttl_heap_writes now
        (heapSet (h ++ [heapGet h r]) h.length
          (dictSet (heapGet (h ++ [heapGet h r]) h.length) ("key")
            (.str (key.getD ("")))))
        h.length BASE_TTL_ATTRIBUTE ein eat w hw]
      rw [heapGet_heapSet_ne _ h.length r _ hfresh]
      rw [heapGet_heapSet_ne _ h.length r _ hfresh]
      exact heapGet_append h _ r hr
  refine ⟨?_, hins, hins⟩
  have hgt : ¬ (items.length > 25) := Nat.not_lt.mpr hlen
  simp only [put_many_data_heap, hgt, if_false]
  exact put_many_loop_establishes now ein eat w hw items [] h r hr hmem

/-- Witness for C9 on a one-element heap holding an empty dictionary. -/
theorem put_many_aliasing_spec_witness :
    (heapGet (put_many_data_heap ⟨0, 0⟩ [[]] [PyArg.ref 0]
        (Option.some 60) Option.none).1 0).lookup BASE_TTL_ATTRIBUTE
      = Option.some (.int 60)
    ∧ heapGet (insert_data_heap ⟨0, 0⟩ [[]] (PyArg.ref 0) Option.none
        (Option.some 60) Option.none).1 0 = heapGet [[]] 0 := by
  have h := put_many_aliasing_spec ⟨0, 0⟩ [[]] [PyArg.ref 0] 0 Option.none
    (Option.some 60) Option.none 60
    (by simp [ttlVal, truthyOptInt, truthyOptEat, timestamp_replace0, pyInt_intCast,
      Datetime.addSeconds, pyInt, Rat.num_ofNat, Rat.den_ofNat, Int.tdiv_one])
    (by decide) (by simp) (by decide)
  exact ⟨h.1, h.2.1⟩
